import Mathlib

/-!
Shallow embedding of the seagrass mapping script (seagrass_map.py).

Coordinates are modelled as rational numbers.  The script delegates
coordinate reprojection to an external GIS library through the
GeoDataFrame to_crs calls; that reprojection code is not part of the
repository, so it is modelled from the specification of the Coordinate
Reprojector (see the doc comments on supportedZone, to_planar and
to_geodetic).  Everything else (grid construction, attribute copying,
the style lookup and the random data generator) is translated directly
from the source file.
-/

/-- Geodetic coordinate: latitude and longitude in signed degrees. -/
@[ext]
structure GeoPoint where
  lat : ℚ
  lon : ℚ
deriving DecidableEq, Repr

/-- Planar (projected) coordinate pair, in meters. -/
@[ext]
structure PlanarPoint where
  x : ℚ
  y : ℚ
deriving DecidableEq, Repr

/-- One parsed row of the tab separated input file, as read into the
data frame: cell id, latitude, longitude, number of seagrass plants,
and the method column (parsed as an integer). -/
structure SampleRecord where
  cell : ℤ
  latitude : ℚ
  longitude : ℚ
  n_seagrass_plants : ℤ
  method : ℤ
deriving DecidableEq, Repr

/-- Error kinds of the reprojection step (spec section 7). -/
inductive GridError where
  | invalidCoordinate
  | invalidZone
deriving DecidableEq, Repr

/-- Modelled from the spec: the set of zone codes the Coordinate
Reprojector supports.  The reprojection library behind the to_crs calls
is missing from the repository; following the spec, the supported
planar systems are the UTM zones, identified by their EPSG codes
32601 to 32660 (northern hemisphere) and 32701 to 32760 (southern
hemisphere). -/
def supportedZone (utm : ℤ) : Bool :=
  if (32601 ≤ utm ∧ utm ≤ 32660) ∨ (32701 ≤ utm ∧ utm ≤ 32760) then true else false

/-- Modelled from the spec: a geodetic coordinate is valid when its
latitude and longitude are inside the standard degree ranges (rational
values are always finite). -/
def validGeodetic (p : GeoPoint) : Bool :=
  if -90 ≤ p.lat ∧ p.lat ≤ 90 ∧ -180 ≤ p.lon ∧ p.lon ≤ 180 then true else false

/-- Scale of the modelled planar systems, in meters per degree. -/
def metersPerDegree : ℚ := 111320

/-- Central meridian of a UTM zone, in degrees: zone n has central
meridian 6 n - 183, and the zone number is the last two digits of the
EPSG code. -/
def centralLon (utm : ℤ) : ℚ :=
  6 * ((utm % 100 : ℤ) : ℚ) - 183

/-- Modelled from the spec: the forward transform of the Coordinate
Reprojector for a supported zone, as a zone anchored affine meters per
degree map with the standard 500 km false easting.  Deterministic,
pure, and exactly invertible (round trip law, spec section 8). -/
def to_planar_raw (p : GeoPoint) (utm : ℤ) : PlanarPoint :=
  { x := 500000 + (p.lon - centralLon utm) * metersPerDegree,
    y := p.lat * metersPerDegree }

/-- Modelled from the spec: to_planar validates the zone and the
coordinate, then applies the forward transform; an unsupported zone is
an InvalidZoneError, an out of range coordinate is an
InvalidCoordinateError. -/
def to_planar (p : GeoPoint) (utm : ℤ) : Except GridError PlanarPoint :=
  if supportedZone utm = true then
    if validGeodetic p = true then Except.ok (to_planar_raw p utm)
    else Except.error GridError.invalidCoordinate
  else Except.error GridError.invalidZone

/-- Modelled from the spec: the inverse transform, the exact algebraic
inverse of to_planar_raw for the same zone. -/
def to_geodetic_raw (q : PlanarPoint) (utm : ℤ) : GeoPoint :=
  { lat := q.y / metersPerDegree,
    lon := centralLon utm + (q.x - 500000) / metersPerDegree }

/-- Modelled from the spec: to_geodetic validates the zone and applies
the inverse transform. -/
def to_geodetic (q : PlanarPoint) (utm : ℤ) : Except GridError GeoPoint :=
  if supportedZone utm = true then Except.ok (to_geodetic_raw q utm)
  else Except.error GridError.invalidZone

/-- The shapely box constructor: the counterclockwise closed exterior
ring of the rectangle with the given bounds, starting at (maxx, miny). -/
def box (minx miny maxx maxy : ℚ) : List PlanarPoint :=
  [⟨maxx, miny⟩, ⟨maxx, maxy⟩, ⟨minx, maxy⟩, ⟨minx, miny⟩, ⟨maxx, miny⟩]

/-- The planar box of side grid_size centered at one projected point
(seagrass_map.py lines 129 to 131). -/
def planarSquare (p : PlanarPoint) (grid_size : ℚ) : List PlanarPoint :=
  box (p.x - grid_size / 2) (p.y - grid_size / 2)
      (p.x + grid_size / 2) (p.y + grid_size / 2)

/-- One row of the returned grid GeoDataFrame: the geodetic boundary
ring plus the columns copied from the input frame. -/
structure GridCell where
  geometry : List GeoPoint
  n_plants : ℤ
  cell : ℤ
  method : ℤ
deriving DecidableEq, Repr

/-- Mapping a fallible step over a list, stopping at the first error:
the effect of the vectorized to_crs calls, which fail as a whole when
any element fails. -/
def exceptMap {α β : Type} (f : α → Except GridError β) : List α → Except GridError (List β)
  | [] => Except.ok []
  | a :: as =>
    match f a with
    | Except.error e => Except.error e
    | Except.ok b =>
      match exceptMap f as with
      | Except.error e => Except.error e
      | Except.ok bs => Except.ok (b :: bs)

/-- Embedding of create_grid_df (seagrass_map.py lines 107 to 143).
File parsing is outside the embedding: the function receives the parsed
records.  Stage one projects every sample point into the planar zone
(the first to_crs call), stage two builds one axis aligned box of side
grid_size around every projected point, stage three projects every box
corner back to geodetic coordinates (the second to_crs call), and
finally the n_plants, cell and method columns are copied from the input
frame by row position.  The function performs no check on grid_size,
mirroring the source. -/
def create_grid_df (records : List SampleRecord) (utm : ℤ) (grid_size : ℚ) :
    Except GridError (List PlanarPoint × List GridCell) :=
  match exceptMap (fun r => to_planar ⟨r.latitude, r.longitude⟩ utm) records with
  | Except.error e => Except.error e
  | Except.ok gdf =>
    match exceptMap (fun corners => exceptMap (fun q => to_geodetic q utm) corners)
        (gdf.map (fun p => planarSquare p grid_size)) with
    | Except.error e => Except.error e
    | Except.ok grid_rings =>
      Except.ok (gdf, (grid_rings.zip records).map (fun pr =>
        { geometry := pr.1, n_plants := pr.2.n_seagrass_plants,
          cell := pr.2.cell, method := pr.2.method }))

/-- The cell produced for one record on the all valid path of
create_grid_df. -/
def mkCell (r : SampleRecord) (utm : ℤ) (grid_size : ℚ) : GridCell :=
  { geometry := (planarSquare (to_planar_raw ⟨r.latitude, r.longitude⟩ utm) grid_size).map
      (fun q => to_geodetic_raw q utm),
    n_plants := r.n_seagrass_plants, cell := r.cell, method := r.method }

/-- A dynamically typed value of the feature properties: the method
property can hold an integer (as parsed into the data frame) or a
string. -/
inductive PyVal where
  | int : ℤ → PyVal
  | str : String → PyVal
deriving DecidableEq, Repr

/-- A folium path style: stroke color and line weight. -/
structure LineStyle where
  color : String
  weight : ℤ
deriving DecidableEq, Repr

/-- Embedding of style_function (seagrass_map.py lines 78 to 104): the
if elif chain on the method property; a Python function falling through
every branch returns None, modelled as Option. -/
def style_function (method : PyVal) : Option LineStyle :=
  if method = PyVal.int 1 then some { color := "orange", weight := 4 }
  else if method = PyVal.int 2 then some { color := "red", weight := 4 }
  else if method = PyVal.int 3 then some { color := "blue", weight := 4 }
  else if method = PyVal.int 4 then some { color := "Yellow", weight := 4 }
  else none

/-- One data row of the generated file, before decimal formatting. -/
structure DataRow where
  cell : ℤ
  latitude : ℚ
  longitude : ℚ
  n_seagrass_plants : ℤ
  method : String
deriving DecidableEq, Repr

/-- A line of the generated file: the header or one data row. -/
inductive FileLine where
  | header
  | data : DataRow → FileLine
deriving DecidableEq, Repr

/-- Model of random.randint lo hi: an arbitrary draw from the seeded
generator, reduced into the inclusive range. -/
def randint (lo hi : ℤ) (draw : ℕ) : ℤ :=
  lo + ((draw % (hi - lo + 1).toNat : ℕ) : ℤ)

/-- Embedding of generate_random_data (seagrass_map.py lines 37 to 75).
The seeded pseudo random generator is modelled by two draw streams:
intDraws feeds the randint call of row i, and unitDraws feeds the two
random.random calls of row i (indices 2 i and 2 i + 1); random.random
always returns a value in the half open unit interval, which becomes a
hypothesis of the theorems below.  The written file is modelled
structurally, one FileLine per line, with the numeric values kept exact
(the percent .6f decimal formatting is presentation only).  This
definition is the loop body: the row written for loop index i. -/
def genRow (min_lat max_lat min_lon max_lon : ℚ)
    (intDraws : ℕ → ℕ) (unitDraws : ℕ → ℚ) (i : ℕ) : DataRow :=
  { cell := (i : ℤ) + 1,
    latitude := min_lat + unitDraws (2 * i) * (max_lat - min_lat),
    longitude := min_lon + unitDraws (2 * i + 1) * (max_lon - min_lon),
    n_seagrass_plants := randint 0 100 (intDraws i),
    method :=
      if i < 25 then "1" else if i < 50 then "2"
      else if i < 75 then "3" else "4" }

/-- The generated file: the header line followed by one data line per
loop iteration. -/
def generate_random_data (min_lat max_lat min_lon max_lon : ℚ) (num_rows : ℕ)
    (intDraws : ℕ → ℕ) (unitDraws : ℕ → ℚ) : List FileLine :=
  FileLine.header ::
    (List.range num_rows).map (fun (i : ℕ) =>
      FileLine.data (genRow min_lat max_lat min_lon max_lon intDraws unitDraws i))

/-- The closed ring of an axis aligned rectangle in geodetic space,
listed in the vertex order produced by mapping the inverse projection
over a box ring. -/
def rectRing (lat1 lat2 lon1 lon2 : ℚ) : List GeoPoint :=
  [⟨lat1, lon2⟩, ⟨lat2, lon2⟩, ⟨lat2, lon1⟩, ⟨lat1, lon1⟩, ⟨lat1, lon2⟩]

/-- The solid axis aligned rectangle, the polygon bounded by rectRing. -/
def rectPoly (lat1 lat2 lon1 lon2 : ℚ) : Set GeoPoint :=
  {p : GeoPoint | lat1 ≤ p.lat ∧ p.lat ≤ lat2 ∧ lon1 ≤ p.lon ∧ p.lon ≤ lon2}

/-- The closed segment between two geodetic points. -/
def seg (a b : GeoPoint) : Set GeoPoint :=
  {p : GeoPoint | ∃ t : ℚ, 0 ≤ t ∧ t ≤ 1 ∧
    p.lat = a.lat + t * (b.lat - a.lat) ∧ p.lon = a.lon + t * (b.lon - a.lon)}

/-- A closed quadrilateral ring c0 c1 c2 c3 c0 is simple: the four
vertices are pairwise distinct, opposite edges are disjoint, and
adjacent edges meet exactly in their shared vertex. -/
def simpleQuad (c0 c1 c2 c3 : GeoPoint) : Prop :=
  (c0 ≠ c1 ∧ c0 ≠ c2 ∧ c0 ≠ c3 ∧ c1 ≠ c2 ∧ c1 ≠ c3 ∧ c2 ≠ c3) ∧
  seg c0 c1 ∩ seg c2 c3 = ∅ ∧
  seg c1 c2 ∩ seg c3 c0 = ∅ ∧
  seg c0 c1 ∩ seg c1 c2 = {c1} ∧
  seg c1 c2 ∩ seg c2 c3 = {c2} ∧
  seg c2 c3 ∩ seg c3 c0 = {c3} ∧
  seg c3 c0 ∩ seg c0 c1 = {c0}

/-- Mapping a fallible step that succeeds everywhere is an ordinary map. -/
theorem exceptMap_ok {α β : Type} (f : α → Except GridError β) (g : α → β) :
    ∀ l : List α, (∀ a ∈ l, f a = Except.ok (g a)) →
      exceptMap f l = Except.ok (l.map g)
  | [], _ => rfl
  | a :: as, h => by
    have ha : f a = Except.ok (g a) := h a (List.mem_cons_self a as)
    have has : exceptMap f as = Except.ok (as.map g) :=
      exceptMap_ok f g as (fun x hx => h x (List.mem_cons_of_mem a hx))
    simp [exceptMap, ha, has]

/-- If every element either succeeds or fails with the same error kind,
and some element fails, the whole fallible map fails with that kind. -/
theorem exceptMap_error {α β : Type} (f : α → Except GridError β) (c : GridError) :
    ∀ l : List α, (∀ a ∈ l, (∃ b, f a = Except.ok b) ∨ f a = Except.error c) →
      (∃ a ∈ l, f a = Except.error c) → exceptMap f l = Except.error c
  | [], _, hex => by simp at hex
  | a :: as, hall, hex => by
    rcases hall a (List.mem_cons_self a as) with ⟨b, hb⟩ | hb
    · have hex' : ∃ x ∈ as, f x = Except.error c := by
        rcases hex with ⟨x, hx, hfx⟩
        rcases List.mem_cons.mp hx with rfl | hx'
        · rw [hb] at hfx; exact absurd hfx (by simp)
        · exact ⟨x, hx', hfx⟩
      have has : exceptMap f as = Except.error c :=
        exceptMap_error f c as (fun x hx => hall x (List.mem_cons_of_mem a hx)) hex'
      simp [exceptMap, hb, has]
    · simp [exceptMap, hb]

/-- Zipping a mapped list with its origin pairs every image with its
source element. -/
theorem zip_map_self {α β : Type} (f : α → β) :
    ∀ l : List α, (l.map f).zip l = l.map (fun a => (f a, a))
  | [] => rfl
  | a :: as => by simp [zip_map_self f as]

/-- Indexing into a mapped list. -/
theorem get_map_aux {α β : Type} (f : α → β) (l : List α) (i : ℕ)
    (h : i < l.length) (h2 : i < (l.map f).length) :
    (l.map f).get ⟨i, h2⟩ = f (l.get ⟨i, h⟩) := by
  simp

/-- On a supported zone and valid records, create_grid_df succeeds and
its two returned frames are plain maps over the input records. -/
theorem create_grid_df_ok_eq (records : List SampleRecord) (utm : ℤ) (gs : ℚ)
    (hz : supportedZone utm = true)
    (hv : ∀ r ∈ records, validGeodetic ⟨r.latitude, r.longitude⟩ = true) :
    create_grid_df records utm gs =
      Except.ok
        (records.map (fun r => to_planar_raw ⟨r.latitude, r.longitude⟩ utm),
         records.map (fun r => mkCell r utm gs)) := by
  have h1 : exceptMap (fun r => to_planar ⟨r.latitude, r.longitude⟩ utm) records =
      Except.ok (records.map (fun r => to_planar_raw ⟨r.latitude, r.longitude⟩ utm)) :=
    exceptMap_ok _ _ records (fun r hr => by simp [to_planar, hz, hv r hr])
  have h2 : ∀ corners : List PlanarPoint,
      exceptMap (fun q => to_geodetic q utm) corners =
        Except.ok (corners.map (fun q => to_geodetic_raw q utm)) :=
    fun corners => exceptMap_ok _ _ corners (fun q _ => by simp [to_geodetic, hz])
  have h3 : exceptMap (fun corners => exceptMap (fun q => to_geodetic q utm) corners)
      ((records.map (fun r => to_planar_raw ⟨r.latitude, r.longitude⟩ utm)).map
        (fun p => planarSquare p gs)) =
      Except.ok (((records.map (fun r => to_planar_raw ⟨r.latitude, r.longitude⟩ utm)).map
        (fun p => planarSquare p gs)).map
          (fun corners => corners.map (fun q => to_geodetic_raw q utm))) :=
    exceptMap_ok _ _ _ (fun corners _ => h2 corners)
  rw [create_grid_df, h1]
  dsimp only
  rw [h3]
  dsimp only
  simp only [List.map_map, zip_map_self, Function.comp]
  rfl

/-- A concrete valid sample record used by the concrete instances. -/
def demoRecord : SampleRecord :=
  { cell := 1, latitude := 51, longitude := 4, n_seagrass_plants := 42, method := 2 }

/-- A concrete record whose latitude 200 is out of the valid range. -/
def badRecord : SampleRecord :=
  { cell := 1, latitude := 200, longitude := 4, n_seagrass_plants := 42, method := 2 }

/-- Claim C1: on N valid records, create_grid_df returns exactly N grid
cells, in input order, and the cell at every position carries a copy of
the identifier, quantity (stored as n_plants) and category of the record
at the same position; no record is merged, split or dropped. -/
theorem create_grid_df_cardinality (records : List SampleRecord) (utm : ℤ) (gs : ℚ)
    (hz : supportedZone utm = true)
    (hv : ∀ r ∈ records, validGeodetic ⟨r.latitude, r.longitude⟩ = true) :
    ∃ gdf cells, create_grid_df records utm gs = Except.ok (gdf, cells) ∧
      cells.length = records.length ∧
      ∀ (i : ℕ) (h : i < records.length) (h2 : i < cells.length),
        (cells.get ⟨i, h2⟩).cell = (records.get ⟨i, h⟩).cell ∧
        (cells.get ⟨i, h2⟩).n_plants = (records.get ⟨i, h⟩).n_seagrass_plants ∧
        (cells.get ⟨i, h2⟩).method = (records.get ⟨i, h⟩).method := by
  refine ⟨_, _, create_grid_df_ok_eq records utm gs hz hv, by simp, ?_⟩
  intro i h h2
  rw [get_map_aux (fun r => mkCell r utm gs) records i h]
  exact ⟨rfl, rfl, rfl⟩

/-- Witness for claim C1 at one concrete record. -/
theorem create_grid_df_cardinality_witness :
    ∃ gdf cells, create_grid_df [demoRecord] 32631 20 = Except.ok (gdf, cells) ∧
      cells.length = [demoRecord].length ∧
      ∀ (i : ℕ) (h : i < [demoRecord].length) (h2 : i < cells.length),
        (cells.get ⟨i, h2⟩).cell = ([demoRecord].get ⟨i, h⟩).cell ∧
        (cells.get ⟨i, h2⟩).n_plants = ([demoRecord].get ⟨i, h⟩).n_seagrass_plants ∧
        (cells.get ⟨i, h2⟩).method = ([demoRecord].get ⟨i, h⟩).method :=
  create_grid_df_cardinality [demoRecord] 32631 20 (by decide) (by decide)

/-- Claim C2 counterexample: with grid edge length zero, create_grid_df
raises no error and still produces one cell for one valid record. -/
theorem create_grid_df_zero_edge_cex :
    (create_grid_df [demoRecord] 32631 0).map (fun pr => pr.2.length) = Except.ok 1 := by
  rw [create_grid_df_ok_eq [demoRecord] 32631 0 (by decide) (by decide)]
  rfl

/-- Claim C2 as amended: create_grid_df performs no validation of the
grid edge length: with a supported zone and valid records, a zero or
negative edge length raises no error and the builder still returns one
(degenerate or inverted) cell per record. -/
theorem create_grid_df_no_edge_length_check (records : List SampleRecord) (utm : ℤ) (gs : ℚ)
    (hz : supportedZone utm = true)
    (hv : ∀ r ∈ records, validGeodetic ⟨r.latitude, r.longitude⟩ = true)
    (_hg : gs ≤ 0) :
    ∃ gdf cells, create_grid_df records utm gs = Except.ok (gdf, cells) ∧
      cells.length = records.length :=
  ⟨_, _, create_grid_df_ok_eq records utm gs hz hv, by simp⟩

/-- Witness for the amended claim C2 at edge length minus one. -/
theorem create_grid_df_no_edge_length_check_witness :
    ∃ gdf cells, create_grid_df [demoRecord] 32631 (-1) = Except.ok (gdf, cells) ∧
      cells.length = [demoRecord].length :=
  create_grid_df_no_edge_length_check [demoRecord] 32631 (-1) (by decide) (by decide) (by decide)

/-- Claim C5: a record whose geodetic coordinate is out of the valid
degree range makes create_grid_df fail with the invalid coordinate
error, surfaced to the caller instead of a cell collection. -/
theorem create_grid_df_invalid_coordinate (records : List SampleRecord) (utm : ℤ) (gs : ℚ)
    (r : SampleRecord) (hz : supportedZone utm = true) (hr : r ∈ records)
    (hval : validGeodetic ⟨r.latitude, r.longitude⟩ = false) :
    create_grid_df records utm gs = Except.error GridError.invalidCoordinate := by
  have h1 : exceptMap (fun s => to_planar ⟨s.latitude, s.longitude⟩ utm) records =
      Except.error GridError.invalidCoordinate := by
    apply exceptMap_error
    · intro a _
      by_cases hva : validGeodetic ⟨a.latitude, a.longitude⟩ = true
      · exact Or.inl ⟨to_planar_raw ⟨a.latitude, a.longitude⟩ utm,
          by simp [to_planar, hz, hva]⟩
      · exact Or.inr (by simp [to_planar, hz, hva])
    · exact ⟨r, hr, by simp [to_planar, hz, hval]⟩
  rw [create_grid_df, h1]

/-- Witness for claim C5: latitude 200 is rejected. -/
theorem create_grid_df_invalid_coordinate_witness :
    create_grid_df [badRecord] 32631 20 = Except.error GridError.invalidCoordinate :=
  create_grid_df_invalid_coordinate [badRecord] 32631 20 badRecord
    (by decide) (by simp) (by decide)

/-- Claim C6: for a valid geodetic coordinate and a supported zone, the
inverse projection is the exact algebraic inverse of the forward
projection: projecting forward and back returns the original point
(exactly, hence inside any tolerance). -/
theorem to_planar_to_geodetic_round_trip (p : GeoPoint) (utm : ℤ)
    (hz : supportedZone utm = true) (hv : validGeodetic p = true) :
    ∃ q : PlanarPoint, to_planar p utm = Except.ok q ∧ to_geodetic q utm = Except.ok p := by
  refine ⟨to_planar_raw p utm, by simp [to_planar, hz, hv], ?_⟩
  have hm : metersPerDegree ≠ 0 := by norm_num [metersPerDegree]
  have hrt : to_geodetic_raw (to_planar_raw p utm) utm = p := by
    ext
    · simp only [to_geodetic_raw, to_planar_raw]
      field_simp
    · simp only [to_geodetic_raw, to_planar_raw]
      field_simp
  simp [to_geodetic, hz, hrt]

/-- Witness for claim C6 at one concrete coordinate and zone. -/
theorem to_planar_to_geodetic_round_trip_witness :
    ∃ q : PlanarPoint, to_planar ⟨51, 4⟩ 32631 = Except.ok q ∧
      to_geodetic q 32631 = Except.ok ⟨51, 4⟩ :=
  to_planar_to_geodetic_round_trip ⟨51, 4⟩ 32631 (by decide) (by decide)

/-- Claim C7: the grid builder is deterministic: two calls with equal
record sequences, zones and edge lengths return equal results. -/
theorem create_grid_df_deterministic (r1 r2 : List SampleRecord) (u1 u2 : ℤ)
    (g1 g2 : ℚ) (hr : r1 = r2) (hu : u1 = u2) (hg : g1 = g2) :
    create_grid_df r1 u1 g1 = create_grid_df r2 u2 g2 := by
  rw [hr, hu, hg]

/-- Witness for claim C7 at concrete equal inputs. -/
theorem create_grid_df_deterministic_witness :
    create_grid_df [demoRecord] 32631 20 = create_grid_df [demoRecord] 32631 20 :=
  create_grid_df_deterministic [demoRecord] [demoRecord] 32631 32631 20 20 rfl rfl rfl

/-- Claim C9: style_function returns a style exactly for the integer
method values 1, 2, 3 and 4 (orange, red, blue and Yellow, each with
weight 4); every other value, for example the integer 5 or the string
form of 1, falls through every branch and yields none. -/
theorem style_function_cases :
    style_function (PyVal.int 1) = some { color := "orange", weight := 4 } ∧
    style_function (PyVal.int 2) = some { color := "red", weight := 4 } ∧
    style_function (PyVal.int 3) = some { color := "blue", weight := 4 } ∧
    style_function (PyVal.int 4) = some { color := "Yellow", weight := 4 } ∧
    ∀ v : PyVal, v ≠ PyVal.int 1 → v ≠ PyVal.int 2 → v ≠ PyVal.int 3 →
      v ≠ PyVal.int 4 → style_function v = none := by
  refine ⟨rfl, rfl, rfl, rfl, ?_⟩
  intro v h1 h2 h3 h4
  simp [style_function, h1, h2, h3, h4]

/-- Witness for claim C9: the integer 5 and the string form of 1
receive no style. -/
theorem style_function_cases_witness :
    style_function (PyVal.int 5) = none ∧ style_function (PyVal.str "1") = none :=
  ⟨style_function_cases.2.2.2.2 (PyVal.int 5)
      (by decide) (by decide) (by decide) (by decide),
   style_function_cases.2.2.2.2 (PyVal.str "1")
      (by decide) (by decide) (by decide) (by decide)⟩

/-- Claim C10: the generated file is exactly one header line plus
num_rows data rows; every row has an integer plant count between 0 and
100 inclusive, a latitude and longitude inside the given bounds, and a
method label determined solely by the row position: loop indices below
25 give the label 1, below 50 the label 2, below 75 the label 3, and
all later rows the label 4. -/
theorem generate_random_data_shape (min_lat max_lat min_lon max_lon : ℚ)
    (num_rows : ℕ) (intDraws : ℕ → ℕ) (unitDraws : ℕ → ℚ)
    (hlat : min_lat ≤ max_lat) (hlon : min_lon ≤ max_lon)
    (hu : ∀ j, 0 ≤ unitDraws j ∧ unitDraws j < 1) :
    ∃ rows : List DataRow,
      generate_random_data min_lat max_lat min_lon max_lon num_rows intDraws unitDraws =
        FileLine.header :: rows.map FileLine.data ∧
      rows.length = num_rows ∧
      ∀ (i : ℕ) (h : i < num_rows) (h2 : i < rows.length),
        0 ≤ (rows.get ⟨i, h2⟩).n_seagrass_plants ∧
        (rows.get ⟨i, h2⟩).n_seagrass_plants ≤ 100 ∧
        min_lat ≤ (rows.get ⟨i, h2⟩).latitude ∧
        (rows.get ⟨i, h2⟩).latitude ≤ max_lat ∧
        min_lon ≤ (rows.get ⟨i, h2⟩).longitude ∧
        (rows.get ⟨i, h2⟩).longitude ≤ max_lon ∧
        (rows.get ⟨i, h2⟩).method =
          (if i < 25 then "1" else if i < 50 then "2"
           else if i < 75 then "3" else "4") := by
  refine ⟨(List.range num_rows).map
    (genRow min_lat max_lat min_lon max_lon intDraws unitDraws), ?_, by simp, ?_⟩
  · simp [generate_random_data, List.map_map, Function.comp]
  · intro i h h2
    have hrange : i < (List.range num_rows).length := by simpa using h
    rw [get_map_aux (genRow min_lat max_lat min_lon max_lon intDraws unitDraws)
      (List.range num_rows) i hrange]
    rw [List.get_range]
    have heq : randint 0 100 (intDraws i) = ((intDraws i % 101 : ℕ) : ℤ) := by
      show (0 : ℤ) + ((intDraws i % (100 - 0 + 1 : ℤ).toNat : ℕ) : ℤ) = _
      norm_num
    have hplants : 0 ≤ randint 0 100 (intDraws i) ∧ randint 0 100 (intDraws i) ≤ 100 := by
      rw [heq]
      constructor
      · omega
      · omega
    refine ⟨hplants.1, hplants.2, ?_, ?_, ?_, ?_, rfl⟩
    · have h0 := (hu (2 * i)).1
      have hd : (0 : ℚ) ≤ max_lat - min_lat := by linarith
      simp only [genRow]
      nlinarith [mul_nonneg h0 hd]
    · have h0 := (hu (2 * i)).1
      have h1 := (hu (2 * i)).2
      have hd : (0 : ℚ) ≤ max_lat - min_lat := by linarith
      simp only [genRow]
      nlinarith [mul_nonneg (by linarith : (0 : ℚ) ≤ 1 - unitDraws (2 * i)) hd]
    · have h0 := (hu (2 * i + 1)).1
      have hd : (0 : ℚ) ≤ max_lon - min_lon := by linarith
      simp only [genRow]
      nlinarith [mul_nonneg h0 hd]
    · have h0 := (hu (2 * i + 1)).1
      have h1 := (hu (2 * i + 1)).2
      have hd : (0 : ℚ) ≤ max_lon - min_lon := by linarith
      simp only [genRow]
      nlinarith [mul_nonneg (by linarith : (0 : ℚ) ≤ 1 - unitDraws (2 * i + 1)) hd]

/-- Witness for claim C10 at concrete bounds, row count and draw
streams. -/
theorem generate_random_data_shape_witness :
    ∃ rows : List DataRow,
      generate_random_data 0 1 0 1 30 (fun _ => 7) (fun _ => 0) =
        FileLine.header :: rows.map FileLine.data ∧
      rows.length = 30 ∧
      ∀ (i : ℕ) (h : i < 30) (h2 : i < rows.length),
        0 ≤ (rows.get ⟨i, h2⟩).n_seagrass_plants ∧
        (rows.get ⟨i, h2⟩).n_seagrass_plants ≤ 100 ∧
        0 ≤ (rows.get ⟨i, h2⟩).latitude ∧
        (rows.get ⟨i, h2⟩).latitude ≤ 1 ∧
        0 ≤ (rows.get ⟨i, h2⟩).longitude ∧
        (rows.get ⟨i, h2⟩).longitude ≤ 1 ∧
        (rows.get ⟨i, h2⟩).method =
          (if i < 25 then "1" else if i < 50 then "2"
           else if i < 75 then "3" else "4") :=
  generate_random_data_shape 0 1 0 1 30 (fun _ => 7) (fun _ => 0)
    (by decide) (by decide) (fun _ => ⟨le_rfl, zero_lt_one⟩)

/-- A segment is the same set in either direction. -/
theorem seg_comm (a b : GeoPoint) : seg a b = seg b a := by
  ext p
  simp only [seg, Set.mem_setOf_eq]
  constructor <;> rintro ⟨t, h0, h1, hl, hn⟩ <;>
    exact ⟨1 - t, by linarith, by linarith, by rw [hl]; ring, by rw [hn]; ring⟩

/-- A vertical segment is the set of points with the fixed longitude
and latitude between the endpoints. -/
theorem seg_vert (a b L : ℚ) (hab : a < b) :
    seg ⟨a, L⟩ ⟨b, L⟩ = {p : GeoPoint | p.lon = L ∧ a ≤ p.lat ∧ p.lat ≤ b} := by
  have hne : b - a ≠ 0 := (show (0 : ℚ) < b - a by linarith).ne'
  ext p
  simp only [seg, Set.mem_setOf_eq]
  constructor
  · rintro ⟨t, h0, h1, hl, hn⟩
    refine ⟨by rw [hn]; ring, ?_, ?_⟩
    · rw [hl]; nlinarith
    · rw [hl]; nlinarith
  · rintro ⟨hn, hl1, hl2⟩
    refine ⟨(p.lat - a) / (b - a), ?_, ?_, ?_, ?_⟩
    · apply div_nonneg <;> linarith
    · rw [div_le_one (by linarith)]; linarith
    · rw [div_mul_cancel₀ _ hne]; ring
    · rw [hn]; ring

/-- A horizontal segment is the set of points with the fixed latitude
and longitude between the endpoints. -/
theorem seg_horiz (A c d : ℚ) (hcd : c < d) :
    seg ⟨A, c⟩ ⟨A, d⟩ = {p : GeoPoint | p.lat = A ∧ c ≤ p.lon ∧ p.lon ≤ d} := by
  have hne : d - c ≠ 0 := (show (0 : ℚ) < d - c by linarith).ne'
  ext p
  simp only [seg, Set.mem_setOf_eq]
  constructor
  · rintro ⟨t, h0, h1, hl, hn⟩
    refine ⟨by rw [hl]; ring, ?_, ?_⟩
    · rw [hn]; nlinarith
    · rw [hn]; nlinarith
  · rintro ⟨hl, hn1, hn2⟩
    refine ⟨(p.lon - c) / (d - c), ?_, ?_, ?_, ?_⟩
    · apply div_nonneg <;> linarith
    · rw [div_le_one (by linarith)]; linarith
    · rw [hl]; ring
    · rw [div_mul_cancel₀ _ hne]; ring

/-- A nondegenerate axis aligned rectangle traversed in ring order is a
simple closed quadrilateral. -/
theorem rect_simple (lat1 lat2 lon1 lon2 : ℚ) (h1 : lat1 < lat2) (h2 : lon1 < lon2) :
    simpleQuad ⟨lat1, lon2⟩ ⟨lat2, lon2⟩ ⟨lat2, lon1⟩ ⟨lat1, lon1⟩ := by
  have e01 : seg ⟨lat1, lon2⟩ ⟨lat2, lon2⟩ =
      {p : GeoPoint | p.lon = lon2 ∧ lat1 ≤ p.lat ∧ p.lat ≤ lat2} := seg_vert _ _ _ h1
  have e12 : seg ⟨lat2, lon2⟩ ⟨lat2, lon1⟩ =
      {p : GeoPoint | p.lat = lat2 ∧ lon1 ≤ p.lon ∧ p.lon ≤ lon2} := by
    rw [seg_comm]; exact seg_horiz _ _ _ h2
  have e23 : seg ⟨lat2, lon1⟩ ⟨lat1, lon1⟩ =
      {p : GeoPoint | p.lon = lon1 ∧ lat1 ≤ p.lat ∧ p.lat ≤ lat2} := by
    rw [seg_comm]; exact seg_vert _ _ _ h1
  have e30 : seg ⟨lat1, lon1⟩ ⟨lat1, lon2⟩ =
      {p : GeoPoint | p.lat = lat1 ∧ lon1 ≤ p.lon ∧ p.lon ≤ lon2} := seg_horiz _ _ _ h2
  refine ⟨⟨?_, ?_, ?_, ?_, ?_, ?_⟩, ?_, ?_, ?_, ?_, ?_, ?_⟩
  · exact fun h => absurd (congrArg GeoPoint.lat h) (ne_of_lt h1)
  · exact fun h => absurd (congrArg GeoPoint.lat h) (ne_of_lt h1)
  · exact fun h => absurd (congrArg GeoPoint.lon h) (ne_of_gt h2)
  · exact fun h => absurd (congrArg GeoPoint.lon h) (ne_of_gt h2)
  · exact fun h => absurd (congrArg GeoPoint.lat h) (ne_of_gt h1)
  · exact fun h => absurd (congrArg GeoPoint.lat h) (ne_of_gt h1)
  · rw [e01, e23]
    apply Set.eq_empty_iff_forall_not_mem.mpr
    rintro p ⟨⟨ha, -, -⟩, ⟨hb, -, -⟩⟩
    rw [ha] at hb
    exact absurd hb (ne_of_gt h2)
  · rw [e12, e30]
    apply Set.eq_empty_iff_forall_not_mem.mpr
    rintro p ⟨⟨ha, -, -⟩, ⟨hb, -, -⟩⟩
    rw [ha] at hb
    exact absurd hb (ne_of_gt h1)
  · rw [e01, e12]
    ext p
    simp only [Set.mem_inter_iff, Set.mem_setOf_eq, Set.mem_singleton_iff]
    constructor
    · rintro ⟨⟨hn, -, -⟩, ⟨hl, -, -⟩⟩
      exact GeoPoint.ext hl hn
    · rintro rfl
      exact ⟨⟨rfl, le_of_lt h1, le_rfl⟩, ⟨rfl, le_of_lt h2, le_rfl⟩⟩
  · rw [e12, e23]
    ext p
    simp only [Set.mem_inter_iff, Set.mem_setOf_eq, Set.mem_singleton_iff]
    constructor
    · rintro ⟨⟨hl, -, -⟩, ⟨hn, -, -⟩⟩
      exact GeoPoint.ext hl hn
    · rintro rfl
      exact ⟨⟨rfl, le_rfl, le_of_lt h2⟩, ⟨rfl, le_of_lt h1, le_rfl⟩⟩
  · rw [e23, e30]
    ext p
    simp only [Set.mem_inter_iff, Set.mem_setOf_eq, Set.mem_singleton_iff]
    constructor
    · rintro ⟨⟨hn, -, -⟩, ⟨hl, -, -⟩⟩
      exact GeoPoint.ext hl hn
    · rintro rfl
      exact ⟨⟨rfl, le_rfl, le_of_lt h1⟩, ⟨rfl, le_rfl, le_of_lt h2⟩⟩
  · rw [e30, e01]
    ext p
    simp only [Set.mem_inter_iff, Set.mem_setOf_eq, Set.mem_singleton_iff]
    constructor
    · rintro ⟨⟨hl, -, -⟩, ⟨hn, -, -⟩⟩
      exact GeoPoint.ext hl hn
    · rintro rfl
      exact ⟨⟨rfl, le_of_lt h2, le_rfl⟩, ⟨rfl, le_rfl, le_of_lt h1⟩⟩

/-- Mapping the inverse projection over the planar box of one point
gives exactly the geodetic rectangle ring with the image bounds. -/
theorem planar_ring_to_rect (p : PlanarPoint) (gs : ℚ) (utm : ℤ) :
    (planarSquare p gs).map (fun q => to_geodetic_raw q utm) =
      rectRing ((p.y - gs / 2) / metersPerDegree) ((p.y + gs / 2) / metersPerDegree)
        (centralLon utm + (p.x - gs / 2 - 500000) / metersPerDegree)
        (centralLon utm + (p.x + gs / 2 - 500000) / metersPerDegree) := rfl

/-- A rectangle ring is closed: its first and last vertices agree. -/
theorem rectRing_closed (lat1 lat2 lon1 lon2 : ℚ) :
    (rectRing lat1 lat2 lon1 lon2).head? = (rectRing lat1 lat2 lon1 lon2).getLast? := by
  simp [rectRing]

/-- Bounds of the geodetic rectangle obtained for one record: with a
positive edge length the rectangle is nondegenerate and its bounds
bracket the latitude and longitude of the record. -/
theorem rect_bounds (r : SampleRecord) (utm : ℤ) (gs : ℚ) (hpos : 0 < gs) :
    ((to_planar_raw ⟨r.latitude, r.longitude⟩ utm).y - gs / 2) / metersPerDegree <
      ((to_planar_raw ⟨r.latitude, r.longitude⟩ utm).y + gs / 2) / metersPerDegree ∧
    centralLon utm + ((to_planar_raw ⟨r.latitude, r.longitude⟩ utm).x - gs / 2 - 500000) /
        metersPerDegree <
      centralLon utm + ((to_planar_raw ⟨r.latitude, r.longitude⟩ utm).x + gs / 2 - 500000) /
        metersPerDegree ∧
    ((to_planar_raw ⟨r.latitude, r.longitude⟩ utm).y - gs / 2) / metersPerDegree ≤
      r.latitude ∧
    r.latitude ≤ ((to_planar_raw ⟨r.latitude, r.longitude⟩ utm).y + gs / 2) /
      metersPerDegree ∧
    centralLon utm + ((to_planar_raw ⟨r.latitude, r.longitude⟩ utm).x - gs / 2 - 500000) /
        metersPerDegree ≤ r.longitude ∧
    r.longitude ≤ centralLon utm + ((to_planar_raw ⟨r.latitude, r.longitude⟩ utm).x +
        gs / 2 - 500000) / metersPerDegree := by
  have hm : (0 : ℚ) < metersPerDegree := by norm_num [metersPerDegree]
  simp only [to_planar_raw]
  refine ⟨?_, ?_, ?_, ?_, ?_, ?_⟩
  · rw [div_lt_div_iff hm hm]
    nlinarith [mul_pos hpos hm]
  · apply add_lt_add_left
    rw [div_lt_div_iff hm hm]
    nlinarith [mul_pos hpos hm]
  · rw [div_le_iff hm]
    nlinarith
  · rw [le_div_iff hm]
    nlinarith
  · have key : (500000 + (r.longitude - centralLon utm) * metersPerDegree - gs / 2 -
        500000) / metersPerDegree ≤ r.longitude - centralLon utm := by
      rw [div_le_iff hm]
      nlinarith
    linarith
  · have key : r.longitude - centralLon utm ≤ (500000 + (r.longitude - centralLon utm) *
        metersPerDegree + gs / 2 - 500000) / metersPerDegree := by
      rw [le_div_iff hm]
      nlinarith
    linarith

/-- Claim C3: for every input record the cell built by create_grid_df
is, in the planar system of the zone, the axis aligned square centered
at the projected point of the record, with corners at x plus or minus
half the edge and y plus or minus half the edge, so each planar side
has length exactly the configured edge length; the stored geodetic ring
is the image of that square under the inverse projection. -/
theorem create_grid_df_square (records : List SampleRecord) (utm : ℤ) (gs : ℚ)
    (hz : supportedZone utm = true)
    (hv : ∀ r ∈ records, validGeodetic ⟨r.latitude, r.longitude⟩ = true) :
    ∃ gdf cells, create_grid_df records utm gs = Except.ok (gdf, cells) ∧
      gdf.length = records.length ∧ cells.length = records.length ∧
      ∀ (i : ℕ) (h : i < records.length) (hg2 : i < gdf.length) (h2 : i < cells.length),
        gdf.get ⟨i, hg2⟩ =
          to_planar_raw ⟨(records.get ⟨i, h⟩).latitude, (records.get ⟨i, h⟩).longitude⟩ utm ∧
        (cells.get ⟨i, h2⟩).geometry =
          (planarSquare (gdf.get ⟨i, hg2⟩) gs).map (fun q => to_geodetic_raw q utm) ∧
        planarSquare (gdf.get ⟨i, hg2⟩) gs =
          [⟨(gdf.get ⟨i, hg2⟩).x + gs / 2, (gdf.get ⟨i, hg2⟩).y - gs / 2⟩,
           ⟨(gdf.get ⟨i, hg2⟩).x + gs / 2, (gdf.get ⟨i, hg2⟩).y + gs / 2⟩,
           ⟨(gdf.get ⟨i, hg2⟩).x - gs / 2, (gdf.get ⟨i, hg2⟩).y + gs / 2⟩,
           ⟨(gdf.get ⟨i, hg2⟩).x - gs / 2, (gdf.get ⟨i, hg2⟩).y - gs / 2⟩,
           ⟨(gdf.get ⟨i, hg2⟩).x + gs / 2, (gdf.get ⟨i, hg2⟩).y - gs / 2⟩] ∧
        ((gdf.get ⟨i, hg2⟩).x + gs / 2) - ((gdf.get ⟨i, hg2⟩).x - gs / 2) = gs ∧
        ((gdf.get ⟨i, hg2⟩).y + gs / 2) - ((gdf.get ⟨i, hg2⟩).y - gs / 2) = gs := by
  refine ⟨_, _, create_grid_df_ok_eq records utm gs hz hv, by simp, by simp, ?_⟩
  intro i h hg2 h2
  rw [get_map_aux (fun r => to_planar_raw ⟨r.latitude, r.longitude⟩ utm) records i h,
    get_map_aux (fun r => mkCell r utm gs) records i h]
  exact ⟨rfl, rfl, rfl, by ring, by ring⟩

/-- Witness for claim C3 at one concrete record, zone and edge length. -/
theorem create_grid_df_square_witness :
    ∃ gdf cells, create_grid_df [demoRecord] 32631 20 = Except.ok (gdf, cells) ∧
      gdf.length = [demoRecord].length ∧ cells.length = [demoRecord].length ∧
      ∀ (i : ℕ) (h : i < [demoRecord].length) (hg2 : i < gdf.length) (h2 : i < cells.length),
        gdf.get ⟨i, hg2⟩ =
          to_planar_raw ⟨([demoRecord].get ⟨i, h⟩).latitude,
            ([demoRecord].get ⟨i, h⟩).longitude⟩ 32631 ∧
        (cells.get ⟨i, h2⟩).geometry =
          (planarSquare (gdf.get ⟨i, hg2⟩) 20).map (fun q => to_geodetic_raw q 32631) ∧
        planarSquare (gdf.get ⟨i, hg2⟩) 20 =
          [⟨(gdf.get ⟨i, hg2⟩).x + 20 / 2, (gdf.get ⟨i, hg2⟩).y - 20 / 2⟩,
           ⟨(gdf.get ⟨i, hg2⟩).x + 20 / 2, (gdf.get ⟨i, hg2⟩).y + 20 / 2⟩,
           ⟨(gdf.get ⟨i, hg2⟩).x - 20 / 2, (gdf.get ⟨i, hg2⟩).y + 20 / 2⟩,
           ⟨(gdf.get ⟨i, hg2⟩).x - 20 / 2, (gdf.get ⟨i, hg2⟩).y - 20 / 2⟩,
           ⟨(gdf.get ⟨i, hg2⟩).x + 20 / 2, (gdf.get ⟨i, hg2⟩).y - 20 / 2⟩] ∧
        ((gdf.get ⟨i, hg2⟩).x + 20 / 2) - ((gdf.get ⟨i, hg2⟩).x - 20 / 2) = 20 ∧
        ((gdf.get ⟨i, hg2⟩).y + 20 / 2) - ((gdf.get ⟨i, hg2⟩).y - 20 / 2) = 20 :=
  create_grid_df_square [demoRecord] 32631 20 (by decide) (by decide)

/-- Claim C4: with a positive edge length, the sample point of every
record lies inside or on the boundary of the polygon of its cell. -/
theorem create_grid_df_containment (records : List SampleRecord) (utm : ℤ) (gs : ℚ)
    (hz : supportedZone utm = true)
    (hv : ∀ r ∈ records, validGeodetic ⟨r.latitude, r.longitude⟩ = true)
    (hpos : 0 < gs) :
    ∃ gdf cells, create_grid_df records utm gs = Except.ok (gdf, cells) ∧
      cells.length = records.length ∧
      ∀ (i : ℕ) (h : i < records.length) (h2 : i < cells.length),
        ∃ lat1 lat2 lon1 lon2 : ℚ,
          (cells.get ⟨i, h2⟩).geometry = rectRing lat1 lat2 lon1 lon2 ∧
          (⟨(records.get ⟨i, h⟩).latitude, (records.get ⟨i, h⟩).longitude⟩ : GeoPoint) ∈
            rectPoly lat1 lat2 lon1 lon2 := by
  refine ⟨_, _, create_grid_df_ok_eq records utm gs hz hv, by simp, ?_⟩
  intro i h h2
  rw [get_map_aux (fun r => mkCell r utm gs) records i h]
  obtain ⟨-, -, hb3, hb4, hb5, hb6⟩ := rect_bounds (records.get ⟨i, h⟩) utm gs hpos
  refine ⟨_, _, _, _, planar_ring_to_rect _ gs utm, ?_⟩
  exact ⟨hb3, hb4, hb5, hb6⟩

/-- Witness for claim C4 at one concrete record, zone and edge length. -/
theorem create_grid_df_containment_witness :
    ∃ gdf cells, create_grid_df [demoRecord] 32631 20 = Except.ok (gdf, cells) ∧
      cells.length = [demoRecord].length ∧
      ∀ (i : ℕ) (h : i < [demoRecord].length) (h2 : i < cells.length),
        ∃ lat1 lat2 lon1 lon2 : ℚ,
          (cells.get ⟨i, h2⟩).geometry = rectRing lat1 lat2 lon1 lon2 ∧
          (⟨([demoRecord].get ⟨i, h⟩).latitude, ([demoRecord].get ⟨i, h⟩).longitude⟩ :
            GeoPoint) ∈ rectPoly lat1 lat2 lon1 lon2 :=
  create_grid_df_containment [demoRecord] 32631 20 (by decide) (by decide) (by decide)

/-- Claim C8: with a positive edge length, the boundary of every cell
is a closed quadrilateral ring, the four corners of a nondegenerate
rectangle in order with the first vertex repeated at the end, and the
quadrilateral does not self intersect. -/
theorem create_grid_df_simple_ring (records : List SampleRecord) (utm : ℤ) (gs : ℚ)
    (hz : supportedZone utm = true)
    (hv : ∀ r ∈ records, validGeodetic ⟨r.latitude, r.longitude⟩ = true)
    (hpos : 0 < gs) :
    ∃ gdf cells, create_grid_df records utm gs = Except.ok (gdf, cells) ∧
      ∀ (i : ℕ) (h2 : i < cells.length),
        ∃ lat1 lat2 lon1 lon2 : ℚ, lat1 < lat2 ∧ lon1 < lon2 ∧
          (cells.get ⟨i, h2⟩).geometry =
            [⟨lat1, lon2⟩, ⟨lat2, lon2⟩, ⟨lat2, lon1⟩, ⟨lat1, lon1⟩, ⟨lat1, lon2⟩] ∧
          (cells.get ⟨i, h2⟩).geometry.length = 5 ∧
          (cells.get ⟨i, h2⟩).geometry.head? = (cells.get ⟨i, h2⟩).geometry.getLast? ∧
          simpleQuad ⟨lat1, lon2⟩ ⟨lat2, lon2⟩ ⟨lat2, lon1⟩ ⟨lat1, lon1⟩ := by
  refine ⟨_, _, create_grid_df_ok_eq records utm gs hz hv, ?_⟩
  intro i h2
  have h : i < records.length := by simpa using h2
  rw [get_map_aux (fun r => mkCell r utm gs) records i h]
  obtain ⟨hb1, hb2, -, -, -, -⟩ := rect_bounds (records.get ⟨i, h⟩) utm gs hpos
  refine ⟨_, _, _, _, hb1, hb2, ?_, ?_, ?_, rect_simple _ _ _ _ hb1 hb2⟩
  · exact planar_ring_to_rect _ gs utm
  · rfl
  · show ((planarSquare _ gs).map (fun q => to_geodetic_raw q utm)).head? = _
    rw [planar_ring_to_rect _ gs utm]
    exact rectRing_closed _ _ _ _

/-- Witness for claim C8 at one concrete record, zone and edge length. -/
theorem create_grid_df_simple_ring_witness :
    ∃ gdf cells, create_grid_df [demoRecord] 32631 20 = Except.ok (gdf, cells) ∧
      ∀ (i : ℕ) (h2 : i < cells.length),
        ∃ lat1 lat2 lon1 lon2 : ℚ, lat1 < lat2 ∧ lon1 < lon2 ∧
          (cells.get ⟨i, h2⟩).geometry =
            [⟨lat1, lon2⟩, ⟨lat2, lon2⟩, ⟨lat2, lon1⟩, ⟨lat1, lon1⟩, ⟨lat1, lon2⟩] ∧
          (cells.get ⟨i, h2⟩).geometry.length = 5 ∧
          (cells.get ⟨i, h2⟩).geometry.head? = (cells.get ⟨i, h2⟩).geometry.getLast? ∧
          simpleQuad ⟨lat1, lon2⟩ ⟨lat2, lon2⟩ ⟨lat2, lon1⟩ ⟨lat1, lon1⟩ :=
  create_grid_df_simple_ring [demoRecord] 32631 20 (by decide) (by decide) (by decide)
